import Mathlib

/-!
Verification development for the bole-pushup-tracker server and client.

The definitions below are a shallow embedding of the TypeScript source:

* `src/server/routes.ts` (the most recent revision, the one with the
  authentication guards): the pushup/walk CRUD handlers and the
  `/api/form-check` video pipeline;
* `src/client/src/pages/home.tsx`: the chart aggregation (`chartData`).

JavaScript machine integers/floats are modelled as `Int` (counts, ids) and
`Rat` (miles); JSON bodies as explicit structures with `Option` fields for
fields that are present or absent; the filesystem as a duplicate-free list
of paths; the external effects of the form-check pipeline (ffmpeg child
process, the Gemini model call) as an environment record giving each
effect's outcome.
-/

namespace BoleTracker

/-- Value of a numeric JSON body field as the JS handler sees it.
`num n` is a numeric value (after JS `Number(...)` coercion — numeric
strings land here too, carrying the coerced number), `nan` is a value for
which `isNaN` is true (a non-numeric string), `absent` a missing field
(`undefined`). -/
inductive JsNum (α : Type) where
  | num (n : α)
  | nan
  | absent
  deriving DecidableEq, Repr

/-- JS truthiness test `!x` composed with `isNaN(x)`: the guard
`!count || isNaN(count)` from the POST handlers. It is true exactly for a
missing field, a NaN value, and the number 0 (`!0` is true in JS). -/
def JsNum.invalid {α : Type} [DecidableEq α] [OfNat α 0] : JsNum α → Bool
  | .num n => n = 0
  | .nan => true
  | .absent => true

/-- Row of the `pushups` table (`src/db/schema.ts`): serial id, owner id,
integer count, timestamp (modelled as a `Nat` epoch value). -/
structure PushupRow where
  id : Nat
  userId : Nat
  count : Int
  date : Nat
  deriving DecidableEq, Repr

/-- Row of the `walks` table (`src/db/schema.ts`): serial id, owner id,
real miles, timestamp. -/
structure WalkRow where
  id : Nat
  userId : Nat
  miles : Rat
  date : Nat
  deriving DecidableEq, Repr

/-- HTTP response of a CRUD handler: `unauthorized` is `res.sendStatus(401)`,
`badRequest m` is `res.status(400).json({message: m})`, `ok a` is the 200
JSON payload. -/
inductive Resp (α : Type) where
  | unauthorized
  | badRequest (message : String)
  | ok (payload : α)
  deriving DecidableEq, Repr

/-- HTTP status code of a `Resp`. -/
def Resp.status {α : Type} : Resp α → Nat
  | .unauthorized => 401
  | .badRequest _ => 400
  | .ok _ => 200

/-- GET /api/pushups: after the auth guard, `db.select().from(pushups)
.where(eq(pushups.userId, userId))`. -/
def getPushups (authed : Bool) (userId : Nat) (db : List PushupRow) :
    Resp (List PushupRow) :=
  if !authed then .unauthorized
  else .ok (db.filter (fun r => r.userId = userId))

/-- POST /api/pushups: after the auth guard, the validation
`if (!count || isNaN(count)) return 400`, then
`db.insert(pushups).values({userId, count: Number(count),
date: date ? new Date(date) : new Date()})`. `freshId` models the serial
id the database assigns, `now` the current server time. -/
def postPushups (authed : Bool) (userId : Nat) (count : JsNum Int)
    (date : Option Nat) (now : Nat) (freshId : Nat) (db : List PushupRow) :
    Resp PushupRow × List PushupRow :=
  if !authed then (.unauthorized, db)
  else if count.invalid then (.badRequest "Invalid count value", db)
  else
    match count with
    | .num n =>
        let row : PushupRow :=
          { id := freshId, userId := userId, count := n, date := date.getD now }
        (.ok row, db ++ [row])
    | _ => (.badRequest "Invalid count value", db)

/-- DELETE /api/pushups/:id: after the auth guard,
`db.delete(pushups).where(and(eq(pushups.id, parseInt(id)),
eq(pushups.userId, userId)))`, then `res.json({success: true})`. -/
def deletePushups (authed : Bool) (userId : Nat) (id : Nat)
    (db : List PushupRow) : Resp Unit × List PushupRow :=
  if !authed then (.unauthorized, db)
  else (.ok (), db.filter (fun r => !(r.id = id ∧ r.userId = userId)))

/-- GET /api/walks: same shape as `getPushups` over the `walks` table. -/
def getWalks (authed : Bool) (userId : Nat) (db : List WalkRow) :
    Resp (List WalkRow) :=
  if !authed then .unauthorized
  else .ok (db.filter (fun r => r.userId = userId))

/-- POST /api/walks: same shape as `postPushups`, with the guard
`if (!miles || isNaN(miles)) return 400` and `miles: Number(miles)`. -/
def postWalks (authed : Bool) (userId : Nat) (miles : JsNum Rat)
    (date : Option Nat) (now : Nat) (freshId : Nat) (db : List WalkRow) :
    Resp WalkRow × List WalkRow :=
  if !authed then (.unauthorized, db)
  else if miles.invalid then (.badRequest "Invalid miles value", db)
  else
    match miles with
    | .num m =>
        let row : WalkRow :=
          { id := freshId, userId := userId, miles := m, date := date.getD now }
        (.ok row, db ++ [row])
    | _ => (.badRequest "Invalid miles value", db)

/-- DELETE /api/walks/:id: same shape as `deletePushups` over `walks`. -/
def deleteWalks (authed : Bool) (userId : Nat) (id : Nat)
    (db : List WalkRow) : Resp Unit × List WalkRow :=
  if !authed then (.unauthorized, db)
  else (.ok (), db.filter (fun r => !(r.id = id ∧ r.userId = userId)))

/-! The `/api/form-check` pipeline. -/

/-- MIME types accepted by the multer `fileFilter` in `routes.ts`. -/
def allowedTypes : List String := ["video/mp4", "video/quicktime"]

/-- Predicate of the multer `fileFilter`: `allowedTypes.includes(file.mimetype)`. -/
def fileFilterAccepts (mimetype : String) : Bool :=
  allowedTypes.contains mimetype

/-- File part of an incoming multipart request: the temp path multer
assigns under `uploads/` and the declared MIME type. -/
structure IncomingFile where
  path : String
  mimetype : String
  deriving DecidableEq, Repr

/-- Outcomes of the two external effects of the pipeline plus the
environment variables the handler reads. `transcode` is the ffmpeg child
process: `Except.ok` is exit code 0, `Except.error s` a non-zero exit with
`s` the text captured from its stderr stream. `modelCall` is the Gemini
`generateContent` call: `Except.ok t` is a response with text `t`,
`Except.error e` a thrown error with message `e`. -/
structure FormCheckEnv where
  apiKey : Option String
  isDeployment : Bool
  transcode : Except String Unit
  modelCall : Except String String
  deriving Repr

/-- JSON body of a form-check response, with `none` for absent fields. -/
structure Body where
  success : Option Bool
  message : Option String
  error : Option String
  analysis : Option String
  isDeployment : Option Bool
  deriving DecidableEq, Repr

/-- Body with only a `message` field, `res.json({message})`. -/
def Body.msgOnly (m : String) : Body :=
  { success := none, message := some m, error := none, analysis := none,
    isDeployment := none }

/-- Empty body, for `res.sendStatus(401)`. -/
def Body.empty : Body :=
  { success := none, message := none, error := none, analysis := none,
    isDeployment := none }

/-- Observable events of one form-check request, in order of occurrence:
spawning the ffmpeg child process, deleting a file (`fs.unlinkSync`),
issuing the model call, and sending the HTTP response. -/
inductive Ev where
  | spawnFfmpeg
  | unlink (p : String)
  | callModel
  | respond (status : Nat)
  deriving DecidableEq, Repr

/-- Filesystem model: the set of existing paths as a list; `insertFile`
is a file creation, `removeFile` an `unlinkSync`. -/
def insertFile (fs : List String) (p : String) : List String :=
  if p ∈ fs then fs else fs ++ [p]

/-- Deletion of path `p` from the filesystem model. -/
def removeFile (fs : List String) (p : String) : List String :=
  fs.filter (fun q => q ≠ p)

/-- Result of one form-check request: HTTP status, JSON body, the files
existing after the response, and the ordered event trace. -/
structure FormCheckOutcome where
  status : Nat
  body : Body
  files : List String
  trace : List Ev
  deriving DecidableEq, Repr

/-- Handler body of `app.post("/api/form-check")` in `routes.ts` (the
revision with the auth guard), run after multer has already stored the
file: the auth guard, the missing-file 400, the missing-API-key 500, the
ffmpeg promise (reject folds the captured stderr into
`Failed to compress video: <stderr>`), the `readFile` of the compressed
output followed immediately by `unlinkSync(compressedPath)`, the
`model.generateContent` call, the `unlinkSync(req.file.path)` on success,
and the inner catch that answers 500 with
`{success:false, message: "Failed to process form check: " + msg,
error: msg}`. -/
def formCheckHandler (authed : Bool) (file : Option IncomingFile)
    (env : FormCheckEnv) (fs : List String) : FormCheckOutcome :=
  if !authed then
    { status := 401, body := .empty, files := fs, trace := [.respond 401] }
  else
    match file with
    | none =>
        { status := 400, body := .msgOnly "No video file uploaded",
          files := fs, trace := [.respond 400] }
    | some f =>
        match env.apiKey with
        | none =>
            let err := if env.isDeployment then
                "Gemini API key not configured in deployment environment"
              else "Gemini API key not configured"
            { status := 500,
              body := { success := none,
                        message := some (err ++ " - please check environment variables"),
                        error := none, analysis := none,
                        isDeployment := some env.isDeployment },
              files := fs, trace := [.respond 500] }
        | some _ =>
            let compressedPath := f.path ++ "_compressed.mp4"
            match env.transcode with
            | .error stderrText =>
                let msg := "Failed to compress video: " ++ stderrText
                { status := 500,
                  body := { success := some false,
                            message := some ("Failed to process form check: " ++ msg),
                            error := some msg, analysis := none,
                            isDeployment := none },
                  files := fs,
                  trace := [.spawnFfmpeg, .respond 500] }
            | .ok _ =>
                let fs1 := insertFile fs compressedPath
                let fs2 := removeFile fs1 compressedPath
                match env.modelCall with
                | .error e =>
                    { status := 500,
                      body := { success := some false,
                                message := some ("Failed to process form check: " ++ e),
                                error := some e, analysis := none,
                                isDeployment := none },
                      files := fs2,
                      trace := [.spawnFfmpeg, .unlink compressedPath,
                                .callModel, .respond 500] }
                | .ok analysisText =>
                    let fs3 := removeFile fs2 f.path
                    { status := 200,
                      body := { success := some true, message := none,
                                error := none, analysis := some analysisText,
                                isDeployment := none },
                      files := fs3,
                      trace := [.spawnFfmpeg, .unlink compressedPath,
                                .callModel, .unlink f.path, .respond 200] }

/-- Modelled from the spec: the Express error-handling middleware that
turns a multer `fileFilter` rejection into an HTTP response is not under
`src/`; per the spec, "Uploading a file with MIME type outside
`video/mp4, video/quicktime` to /api/form-check returns 400 without
invoking the transcoder". -/
def rejectedUploadStatus : Nat := 400

/-- Route `/api/form-check` as a whole: the middleware chain
`upload.single("video")` runs before the handler. If the multipart body
has a file part, the multer `fileFilter` is consulted: on acceptance the
file is written to its temp path and the handler runs; on rejection the
error short-circuits the chain — the handler (and hence the auth guard,
ffmpeg and the model call) never runs. -/
def formCheckRoute (authed : Bool) (incoming : Option IncomingFile)
    (env : FormCheckEnv) (fs : List String) : FormCheckOutcome :=
  match incoming with
  | none => formCheckHandler authed none env fs
  | some f =>
      if fileFilterAccepts f.mimetype then
        formCheckHandler authed (some f) env (insertFile fs f.path)
      else
        { status := rejectedUploadStatus,
          body := .msgOnly "Invalid file type. Only MP4 and MOV videos are allowed.",
          files := fs, trace := [.respond rejectedUploadStatus] }

/-! Chart aggregation from `src/client/src/pages/home.tsx`. -/

/-- Calendar date as produced by `new Date(year, month - 1, day)` for a
well-formed local date string (year, month 1–12, day 1–31). -/
structure CivilDate where
  y : Nat
  m : Nat
  d : Nat
  deriving DecidableEq, Repr

/-- Split of a character list at every occurrence of a separator, the
semantics of JS `String.prototype.split` with a one-character separator
(and of `String.splitOn`, stated over `String.data`). -/
def splitChars (sep : Char) : List Char → List (List Char)
  | [] => [[]]
  | c :: cs =>
      if c = sep then [] :: splitChars sep cs
      else
        match splitChars sep cs with
        | [] => [[c]]
        | g :: gs => (c :: g) :: gs

/-- Digit-string parse, the semantics of `String.toNat?` over the
character list: all-digit and non-empty, or `none`. -/
def charsToNatAux : List Char → Nat → Option Nat
  | [], acc => some acc
  | c :: cs, acc =>
      if c.isDigit then charsToNatAux cs (acc * 10 + (c.toNat - 48)) else none

/-- Numeric value of a character list, `none` when empty or non-numeric. -/
def charsToNat? (cs : List Char) : Option Nat :=
  match cs with
  | [] => none
  | _ => charsToNatAux cs 0

/-- Client-side `parseLocalDate`: take the part of the string before `T`,
split it on `-`, and read year, month, day. A malformed string gives a JS
Invalid Date; the model defaults its components to 0 (such strings are
outside the claims, which use well-formed `yyyy-MM-dd` dates). -/
def parseLocalDate (s : String) : CivilDate :=
  let dateOnly := (splitChars 'T' s.data).headD []
  match (splitChars '-' dateOnly).map (fun g => (charsToNat? g).getD 0) with
  | [y, m, d] => ⟨y, m, d⟩
  | _ => ⟨0, 0, 0⟩

/-- Days since 1970-01-01 of a civil date (the day count underlying the JS
`Date.getTime` value of `new Date(y, m-1, d)`), by the standard
era/day-of-era computation of the proleptic Gregorian calendar. -/
def daysFromCivil (dt : CivilDate) : Int :=
  let yAdj : Nat := if dt.m ≤ 2 then dt.y - 1 else dt.y
  let era : Nat := yAdj / 400
  let yoe : Nat := yAdj % 400
  let mp : Nat := if dt.m > 2 then dt.m - 3 else dt.m + 9
  let doy : Nat := (153 * mp + 2) / 5 + (dt.d - 1)
  let doe : Nat := yoe * 365 + yoe / 4 - yoe / 100 + doy
  (era * 146097 + doe : Int) - 719468

/-- Inverse of `daysFromCivil`: the civil date of a day count. -/
def civilFromDays (z : Int) : CivilDate :=
  let z2 := z + 719468
  let era := Int.fdiv z2 146097
  let doe : Nat := (z2 - era * 146097).toNat
  let yoe : Nat := (doe - doe / 1460 + doe / 36524 - doe / 146096) / 365
  let doy : Nat := doe - (365 * yoe + yoe / 4 - yoe / 100)
  let mp : Nat := (5 * doy + 2) / 153
  let d : Nat := doy - (153 * mp + 2) / 5 + 1
  let m : Nat := if mp < 10 then mp + 3 else mp - 9
  let y : Int := era * 400 + yoe
  ⟨(if m ≤ 2 then y + 1 else y).toNat, m, d⟩

/-- Day of week, 0 = Sunday (1970-01-01 was a Thursday, 4). -/
def dayOfWeek (dt : CivilDate) : Nat :=
  ((daysFromCivil dt + 4).emod 7).toNat

/-- Week-start date of `date-fns`'s `startOfWeek` with its default
`weekStartsOn: 0` (Sunday). -/
def startOfWeek (dt : CivilDate) : CivilDate :=
  civilFromDays (daysFromCivil dt - dayOfWeek dt)

/-- Month-start date of `date-fns`'s `startOfMonth`. -/
def startOfMonth (dt : CivilDate) : CivilDate :=
  ⟨dt.y, dt.m, 1⟩

/-- Two-digit zero-padded numeral, as in the `date-fns` patterns `MM`/`dd`. -/
def pad2 (n : Nat) : String :=
  if n < 10 then "0" ++ toString n else toString n

/-- Format pattern `MM/dd`. -/
def formatMMdd (dt : CivilDate) : String :=
  pad2 dt.m ++ "/" ++ pad2 dt.d

/-- Month abbreviations of the `date-fns` pattern `MMM` (1-based). -/
def monthAbbrev (m : Nat) : String :=
  (["Jan", "Feb", "Mar", "Apr", "May", "Jun", "Jul", "Aug", "Sep", "Oct",
    "Nov", "Dec"].getD (m - 1) "")

/-- Format pattern `MMM yyyy`. -/
def formatMMMyyyy (dt : CivilDate) : String :=
  monthAbbrev dt.m ++ " " ++ toString dt.y

/-- Pushup entry as the client receives it from GET /api/pushups
(`home.tsx`'s `PushupEntry`). -/
structure ClientEntry where
  id : Nat
  count : Int
  date : String
  deriving DecidableEq, Repr

/-- Chart view selector of `home.tsx`. -/
inductive ViewType where
  | daily
  | weekly
  | monthly
  deriving DecidableEq, Repr

/-- Sort key mirroring `parseLocalDate(a.date).getTime()`: for calendar
dates this encoding is monotone with the epoch time. -/
def entrySortKey (e : ClientEntry) : Nat :=
  let dt := parseLocalDate e.date
  dt.y * 10000 + dt.m * 100 + dt.d

/-- Stable sort of the entries by date, mirroring
`[...pushups].sort((a, b) => getTime(a) - getTime(b))` (JS `sort` is
stable; stable sorting is modelled by insertion sort). -/
def sortedByDate (entries : List ClientEntry) : List ClientEntry :=
  entries.insertionSort (fun a b => entrySortKey a ≤ entrySortKey b)

/-- One step of both aggregation reducers in `chartData`: the daily view's
`acc.find(item => item.date === dateKey)` then `existingDay.count +=`
else `acc.push(...)`, and equally the weekly/monthly record accumulation
`acc[key].total += entry.count` (JS objects preserve string-key insertion
order, so a record is an insertion-ordered association list). -/
def addToBucket (acc : List (String × Int)) (k : String) (c : Int) :
    List (String × Int) :=
  match acc with
  | [] => [(k, c)]
  | (k2, v) :: rest =>
      if k2 = k then (k2, v + c) :: rest else (k2, v) :: addToBucket rest k c

/-- Bucket key of an entry for a given view: `format(date, "MM/dd")` for
daily, `format(startOfWeek(date), "MM/dd")` for weekly,
`format(startOfMonth(date), "MMM yyyy")` for monthly. -/
def bucketKey (view : ViewType) (e : ClientEntry) : String :=
  match view with
  | .daily => formatMMdd (parseLocalDate e.date)
  | .weekly => formatMMdd (startOfWeek (parseLocalDate e.date))
  | .monthly => formatMMMyyyy (startOfMonth (parseLocalDate e.date))

/-- `chartData` of `home.tsx`: sort by date, then fold the entries into
insertion-ordered buckets keyed by the view's key, summing counts. The
result is the chart point list, `date` paired with `count`. -/
def chartData (view : ViewType) (entries : List ClientEntry) :
    List (String × Int) :=
  (sortedByDate entries).foldl
    (fun acc e => addToBucket acc (bucketKey view e) e.count) []

/-- Sum of the counts of the entries falling into bucket `k` of `view`. -/
def bucketSum (view : ViewType) (k : String) (entries : List ClientEntry) : Int :=
  ((entries.filter (fun e => bucketKey view e = k)).map (fun e => e.count)).sum

/-- First-match lookup in an insertion-ordered bucket list, defaulting to
0 for an absent key. -/
def lookupD (acc : List (String × Int)) (k : String) : Int :=
  match acc with
  | [] => 0
  | (k2, v) :: rest => if k2 = k then v else lookupD rest k

/-- Sum of the counts of the entries with key `k` under an arbitrary
keying function (generalizes `bucketSum`). -/
def sumKeyed (f : ClientEntry → String) (k : String)
    (l : List ClientEntry) : Int :=
  ((l.filter (fun e => f e = k)).map (fun e => e.count)).sum

/-! Helper lemmas about the filesystem model and the form-check runs. -/

theorem mem_insertFile {fs : List String} {p q : String} :
    q ∈ insertFile fs p ↔ (q ∈ fs ∨ q = p) := by
  unfold insertFile
  split
  · rename_i h
    constructor
    · exact Or.inl
    · rintro (hq | rfl)
      · exact hq
      · exact h
  · simp [List.mem_append]

theorem mem_removeFile {fs : List String} {p q : String} :
    q ∈ removeFile fs p ↔ (q ∈ fs ∧ q ≠ p) := by
  simp [removeFile, List.mem_filter]

theorem path_ne_compressed (s : String) : s ≠ s ++ "_compressed.mp4" := by
  intro h
  have h2 := congrArg String.length h
  rw [String.length_append] at h2
  have h3 : ("_compressed.mp4" : String).length = 15 := rfl
  omega

theorem route_rejected (authed : Bool) (f : IncomingFile) (env : FormCheckEnv)
    (fs : List String) (hmime : fileFilterAccepts f.mimetype = false) :
    formCheckRoute authed (some f) env fs =
      { status := 400,
        body := .msgOnly "Invalid file type. Only MP4 and MOV videos are allowed.",
        files := fs, trace := [.respond 400] } := by
  simp [formCheckRoute, hmime, rejectedUploadStatus]

theorem route_unauth (f : IncomingFile) (env : FormCheckEnv)
    (fs : List String) (hmime : fileFilterAccepts f.mimetype = true) :
    formCheckRoute false (some f) env fs =
      { status := 401, body := .empty, files := insertFile fs f.path,
        trace := [.respond 401] } := by
  simp [formCheckRoute, hmime, formCheckHandler]

theorem route_missing_file (authed : Bool) (env : FormCheckEnv)
    (fs : List String) :
    formCheckRoute authed none env fs =
      (if authed then
        { status := 400, body := .msgOnly "No video file uploaded",
          files := fs, trace := [.respond 400] }
      else
        { status := 401, body := .empty, files := fs,
          trace := [.respond 401] }) := by
  cases authed <;> simp [formCheckRoute, formCheckHandler]

theorem route_no_key (f : IncomingFile) (env : FormCheckEnv)
    (fs : List String) (hmime : fileFilterAccepts f.mimetype = true)
    (hkey : env.apiKey = none) :
    formCheckRoute true (some f) env fs =
      { status := 500,
        body := { success := none,
                  message := some ((if env.isDeployment then
                      "Gemini API key not configured in deployment environment"
                    else "Gemini API key not configured") ++
                    " - please check environment variables"),
                  error := none, analysis := none,
                  isDeployment := some env.isDeployment },
        files := insertFile fs f.path, trace := [.respond 500] } := by
  simp [formCheckRoute, hmime, formCheckHandler, hkey]

theorem route_transcode_error (f : IncomingFile) (env : FormCheckEnv)
    (fs : List String) (key s : String)
    (hmime : fileFilterAccepts f.mimetype = true)
    (hkey : env.apiKey = some key)
    (htr : env.transcode = Except.error s) :
    formCheckRoute true (some f) env fs =
      { status := 500,
        body := { success := some false,
                  message := some ("Failed to process form check: " ++
                    ("Failed to compress video: " ++ s)),
                  error := some ("Failed to compress video: " ++ s),
                  analysis := none, isDeployment := none },
        files := insertFile fs f.path,
        trace := [.spawnFfmpeg, .respond 500] } := by
  simp [formCheckRoute, hmime, formCheckHandler, hkey, htr]

theorem route_model_error (f : IncomingFile) (env : FormCheckEnv)
    (fs : List String) (key e : String)
    (hmime : fileFilterAccepts f.mimetype = true)
    (hkey : env.apiKey = some key)
    (htr : env.transcode = Except.ok ())
    (hmc : env.modelCall = Except.error e) :
    formCheckRoute true (some f) env fs =
      { status := 500,
        body := { success := some false,
                  message := some ("Failed to process form check: " ++ e),
                  error := some e, analysis := none, isDeployment := none },
        files := removeFile
          (insertFile (insertFile fs f.path) (f.path ++ "_compressed.mp4"))
          (f.path ++ "_compressed.mp4"),
        trace := [.spawnFfmpeg, .unlink (f.path ++ "_compressed.mp4"),
                  .callModel, .respond 500] } := by
  simp [formCheckRoute, hmime, formCheckHandler, hkey, htr, hmc]

theorem route_success (f : IncomingFile) (env : FormCheckEnv)
    (fs : List String) (key a : String)
    (hmime : fileFilterAccepts f.mimetype = true)
    (hkey : env.apiKey = some key)
    (htr : env.transcode = Except.ok ())
    (hmc : env.modelCall = Except.ok a) :
    formCheckRoute true (some f) env fs =
      { status := 200,
        body := { success := some true, message := none, error := none,
                  analysis := some a, isDeployment := none },
        files := removeFile (removeFile
          (insertFile (insertFile fs f.path) (f.path ++ "_compressed.mp4"))
          (f.path ++ "_compressed.mp4")) f.path,
        trace := [.spawnFfmpeg, .unlink (f.path ++ "_compressed.mp4"),
                  .callModel, .unlink f.path, .respond 200] } := by
  simp [formCheckRoute, hmime, formCheckHandler, hkey, htr, hmc]

/-! Theorems. -/

/-- C1: the validation of POST /api/pushups is `!count || isNaN(count)`,
which a negative numeric count passes: submitting `count = -5` is answered
200 and a row with count `-5` is inserted, where the claim (and the data
model's `count > 0`, and the client-side form validation) demand a 400 and
no row. -/
theorem postPushups_accepts_negative_count :
    postPushups true 1 (JsNum.num (-5)) none 100 7 [] =
      (Resp.ok { id := 7, userId := 1, count := -5, date := 100 },
        [{ id := 7, userId := 1, count := -5, date := 100 }]) ∧
    (postPushups true 1 (JsNum.num (-5)) none 100 7 []).1.status = 200 := by
  exact ⟨rfl, rfl⟩

/-- C3: the entry store filters on `userId` on every read and delete: GET
/api/pushups returns exactly the caller's rows; DELETE /api/pushups/:id
answers `{success: true}` and removes exactly the rows matching both the
id and the caller's userId — in particular it is a no-op when the caller
owns no row with that id. -/
theorem entry_store_userId_scoping :
    (∀ (uid : Nat) (db rows : List PushupRow),
        getPushups true uid db = Resp.ok rows →
        ∀ r : PushupRow, r ∈ rows ↔ (r ∈ db ∧ r.userId = uid))
    ∧ (∀ (uid i : Nat) (db : List PushupRow),
        (deletePushups true uid i db).1 = Resp.ok () ∧
        (deletePushups true uid i db).2 =
          db.filter (fun r => !(r.id = i ∧ r.userId = uid)))
    ∧ (∀ (uid i : Nat) (db : List PushupRow),
        (∀ r ∈ db, ¬(r.id = i ∧ r.userId = uid)) →
        (deletePushups true uid i db).2 = db) := by
  refine ⟨?_, ?_, ?_⟩
  · intro uid db rows h r
    simp only [getPushups, Bool.not_true, Bool.false_eq_true, if_false] at h
    cases h
    simp [List.mem_filter]
  · intro uid i db
    exact ⟨rfl, rfl⟩
  · intro uid i db h
    simp only [deletePushups, Bool.not_true, Bool.false_eq_true, if_false]
    rw [List.filter_eq_self]
    intro r hr
    simp only [Bool.not_eq_true', decide_eq_false_iff_not]
    exact h r hr

/-- C4: an upload whose declared MIME type the multer `fileFilter` rejects
(anything outside `video/mp4`/`video/quicktime`) is answered 400 (status
per the spec-modelled error middleware, `rejectedUploadStatus`) and the
ffmpeg child process is never spawned. -/
theorem invalid_mime_rejected (authed : Bool) (f : IncomingFile)
    (env : FormCheckEnv) (fs : List String)
    (hmime : fileFilterAccepts f.mimetype = false) :
    (formCheckRoute authed (some f) env fs).status = 400 ∧
    Ev.spawnFfmpeg ∉ (formCheckRoute authed (some f) env fs).trace := by
  rw [route_rejected authed f env fs hmime]
  exact ⟨rfl, by simp⟩

/-- Witness for `invalid_mime_rejected`: a `video/webm` upload. -/
theorem invalid_mime_rejected_witness :
    (formCheckRoute true (some { path := "uploads/v1", mimetype := "video/webm" })
      { apiKey := some "k", isDeployment := false,
        transcode := Except.ok (), modelCall := Except.ok "t" } []).status = 400 ∧
    Ev.spawnFfmpeg ∉ (formCheckRoute true
      (some { path := "uploads/v1", mimetype := "video/webm" })
      { apiKey := some "k", isDeployment := false,
        transcode := Except.ok (), modelCall := Except.ok "t" } []).trace :=
  invalid_mime_rejected true _ _ [] (by decide)

/-- C2 counterexample: a run in which the transcoder fails (authenticated,
accepted `video/mp4` upload, API key present, ffmpeg exits non-zero): the
500 response is sent with the uploaded temp file still on disk, and the
trace holds no `unlink` at all — cleanup does not happen on this error
path. -/
theorem formCheck_error_path_file_leak :
    (formCheckRoute true (some { path := "uploads/v1", mimetype := "video/mp4" })
      { apiKey := some "k", isDeployment := false,
        transcode := Except.error "boom", modelCall := Except.ok "t" } []).status = 500 ∧
    "uploads/v1" ∈ (formCheckRoute true
      (some { path := "uploads/v1", mimetype := "video/mp4" })
      { apiKey := some "k", isDeployment := false,
        transcode := Except.error "boom", modelCall := Except.ok "t" } []).files ∧
    (formCheckRoute true (some { path := "uploads/v1", mimetype := "video/mp4" })
      { apiKey := some "k", isDeployment := false,
        transcode := Except.error "boom", modelCall := Except.ok "t" } []).trace =
      [Ev.spawnFfmpeg, Ev.respond 500] := by
  refine ⟨?_, ?_, ?_⟩ <;> decide

/-- C2 amended: temp-file cleanup is per-path, not universal. On the
success path both the uploaded and the transcoded file are deleted before
the response; on a transcoder failure nothing is deleted and the uploaded
file remains on disk when the 500 response is sent; on a model-call
failure the transcoded file has been deleted but the uploaded file
remains. -/
theorem formCheck_cleanup_per_path (f : IncomingFile) (env : FormCheckEnv)
    (fs : List String) (key : String)
    (hmime : fileFilterAccepts f.mimetype = true)
    (hkey : env.apiKey = some key) :
    (∀ a, env.transcode = Except.ok () → env.modelCall = Except.ok a →
        f.path ∉ (formCheckRoute true (some f) env fs).files ∧
        (f.path ++ "_compressed.mp4") ∉ (formCheckRoute true (some f) env fs).files ∧
        (formCheckRoute true (some f) env fs).trace =
          [Ev.spawnFfmpeg, Ev.unlink (f.path ++ "_compressed.mp4"),
            Ev.callModel, Ev.unlink f.path, Ev.respond 200])
    ∧ (∀ s, env.transcode = Except.error s →
        (formCheckRoute true (some f) env fs).status = 500 ∧
        f.path ∈ (formCheckRoute true (some f) env fs).files ∧
        (formCheckRoute true (some f) env fs).trace =
          [Ev.spawnFfmpeg, Ev.respond 500])
    ∧ (∀ e, env.transcode = Except.ok () → env.modelCall = Except.error e →
        (formCheckRoute true (some f) env fs).status = 500 ∧
        f.path ∈ (formCheckRoute true (some f) env fs).files ∧
        (f.path ++ "_compressed.mp4") ∉ (formCheckRoute true (some f) env fs).files) := by
  refine ⟨?_, ?_, ?_⟩
  · intro a htr hmc
    rw [route_success f env fs key a hmime hkey htr hmc]
    refine ⟨?_, ?_, rfl⟩
    · simp [mem_removeFile]
    · simp [mem_removeFile, mem_insertFile]
  · intro s htr
    rw [route_transcode_error f env fs key s hmime hkey htr]
    exact ⟨rfl, by simp [mem_insertFile], rfl⟩
  · intro e htr hmc
    rw [route_model_error f env fs key e hmime hkey htr hmc]
    refine ⟨rfl, ?_, ?_⟩
    · simp [mem_removeFile, mem_insertFile]
      exact path_ne_compressed f.path
    · simp [mem_removeFile]

/-- Witness for `formCheck_cleanup_per_path`: a concrete successful run. -/
theorem formCheck_cleanup_per_path_witness :
    "uploads/v1" ∉ (formCheckRoute true
      (some { path := "uploads/v1", mimetype := "video/mp4" })
      { apiKey := some "k", isDeployment := false,
        transcode := Except.ok (), modelCall := Except.ok "t" } []).files ∧
    ("uploads/v1" ++ "_compressed.mp4") ∉ (formCheckRoute true
      (some { path := "uploads/v1", mimetype := "video/mp4" })
      { apiKey := some "k", isDeployment := false,
        transcode := Except.ok (), modelCall := Except.ok "t" } []).files ∧
    (formCheckRoute true (some { path := "uploads/v1", mimetype := "video/mp4" })
      { apiKey := some "k", isDeployment := false,
        transcode := Except.ok (), modelCall := Except.ok "t" } []).trace =
      [Ev.spawnFfmpeg, Ev.unlink ("uploads/v1" ++ "_compressed.mp4"),
        Ev.callModel, Ev.unlink "uploads/v1", Ev.respond 200] :=
  (formCheck_cleanup_per_path _ _ [] "k" (by decide) rfl).1 "t" rfl rfl

/-- C5 counterexample: the missing-file failure response of POST
/api/form-check is `res.status(400).json({message: "No video file
uploaded"})` — a body with neither a `success:false` nor an `error`
field, so not of the claimed shape. -/
theorem formCheck_missing_file_body :
    (formCheckRoute true none
      { apiKey := some "k", isDeployment := false,
        transcode := Except.ok (), modelCall := Except.ok "t" } []).status = 400 ∧
    (formCheckRoute true none
      { apiKey := some "k", isDeployment := false,
        transcode := Except.ok (), modelCall := Except.ok "t" } []).body.success = none ∧
    (formCheckRoute true none
      { apiKey := some "k", isDeployment := false,
        transcode := Except.ok (), modelCall := Except.ok "t" } []).body.error = none := by
  refine ⟨?_, ?_, ?_⟩ <;> decide

/-- C5 amended: only the catch-path failures (transcoder failure, model
failure) carry the `{success:false, message, error}` envelope; the
missing-file 400 is `{message}` alone, the missing-API-key 500 is
`{message, isDeployment}` with no `success` or `error` field; the success
response is `{success:true, analysis}`. -/
theorem formCheck_response_body_shapes :
    (∀ (env : FormCheckEnv) (fs : List String),
        (formCheckRoute true none env fs).body =
          Body.msgOnly "No video file uploaded")
    ∧ (∀ (f : IncomingFile) (env : FormCheckEnv) (fs : List String),
        fileFilterAccepts f.mimetype = true → env.apiKey = none →
        (formCheckRoute true (some f) env fs).body.success = none ∧
        (formCheckRoute true (some f) env fs).body.error = none ∧
        (formCheckRoute true (some f) env fs).body.message =
          some ((if env.isDeployment then
              "Gemini API key not configured in deployment environment"
            else "Gemini API key not configured") ++
            " - please check environment variables") ∧
        (formCheckRoute true (some f) env fs).body.isDeployment =
          some env.isDeployment)
    ∧ (∀ (f : IncomingFile) (env : FormCheckEnv) (fs : List String) (key s : String),
        fileFilterAccepts f.mimetype = true → env.apiKey = some key →
        env.transcode = Except.error s →
        (formCheckRoute true (some f) env fs).body =
          { success := some false,
            message := some ("Failed to process form check: " ++
              ("Failed to compress video: " ++ s)),
            error := some ("Failed to compress video: " ++ s),
            analysis := none, isDeployment := none })
    ∧ (∀ (f : IncomingFile) (env : FormCheckEnv) (fs : List String) (key e : String),
        fileFilterAccepts f.mimetype = true → env.apiKey = some key →
        env.transcode = Except.ok () → env.modelCall = Except.error e →
        (formCheckRoute true (some f) env fs).body =
          { success := some false,
            message := some ("Failed to process form check: " ++ e),
            error := some e, analysis := none, isDeployment := none })
    ∧ (∀ (f : IncomingFile) (env : FormCheckEnv) (fs : List String) (key a : String),
        fileFilterAccepts f.mimetype = true → env.apiKey = some key →
        env.transcode = Except.ok () → env.modelCall = Except.ok a →
        (formCheckRoute true (some f) env fs).status = 200 ∧
        (formCheckRoute true (some f) env fs).body =
          { success := some true, message := none, error := none,
            analysis := some a, isDeployment := none }) := by
  refine ⟨?_, ?_, ?_, ?_, ?_⟩
  · intro env fs
    rw [route_missing_file true env fs]
    rfl
  · intro f env fs hmime hkey
    rw [route_no_key f env fs hmime hkey]
    exact ⟨rfl, rfl, rfl, rfl⟩
  · intro f env fs key s hmime hkey htr
    rw [route_transcode_error f env fs key s hmime hkey htr]
  · intro f env fs key e hmime hkey htr hmc
    rw [route_model_error f env fs key e hmime hkey htr hmc]
  · intro f env fs key a hmime hkey htr hmc
    rw [route_success f env fs key a hmime hkey htr hmc]
    exact ⟨rfl, rfl⟩

/-- Witness for `formCheck_response_body_shapes`: concrete transcoder
failure. -/
theorem formCheck_response_body_shapes_witness :
    (formCheckRoute true (some { path := "uploads/v1", mimetype := "video/mp4" })
      { apiKey := some "k", isDeployment := false,
        transcode := Except.error "boom", modelCall := Except.ok "t" } []).body =
      { success := some false,
        message := some ("Failed to process form check: " ++
          ("Failed to compress video: " ++ "boom")),
        error := some ("Failed to compress video: " ++ "boom"),
        analysis := none, isDeployment := none } :=
  formCheck_response_body_shapes.2.2.1 _ _ [] "k" "boom" (by decide) rfl rfl

/-- C6: a run of POST /api/form-check that is answered 200 leaves neither
the uploaded temp file nor the transcoded `<source>_compressed.mp4` on
disk. -/
theorem formCheck_success_files_deleted (authed : Bool) (f : IncomingFile)
    (env : FormCheckEnv) (fs : List String)
    (h : (formCheckRoute authed (some f) env fs).status = 200) :
    f.path ∉ (formCheckRoute authed (some f) env fs).files ∧
    (f.path ++ "_compressed.mp4") ∉ (formCheckRoute authed (some f) env fs).files := by
  rcases hmime : fileFilterAccepts f.mimetype with _ | _
  · rw [route_rejected authed f env fs hmime] at h
    simp at h
  · cases authed
    · rw [route_unauth f env fs hmime] at h
      simp at h
    · rcases hkey : env.apiKey with _ | key
      · rw [route_no_key f env fs hmime hkey] at h
        simp at h
      · rcases htr : env.transcode with s | u
        · rw [route_transcode_error f env fs key s hmime hkey htr] at h
          simp at h
        · rcases hmc : env.modelCall with e | a
          · rw [route_model_error f env fs key e hmime hkey htr hmc] at h
            simp at h
          · cases u
            rw [route_success f env fs key a hmime hkey htr hmc]
            constructor
            · simp [mem_removeFile]
            · simp [mem_removeFile, mem_insertFile]

/-- Witness for `formCheck_success_files_deleted`: a concrete successful
run. -/
theorem formCheck_success_files_deleted_witness :
    "uploads/v2" ∉ (formCheckRoute true
      (some { path := "uploads/v2", mimetype := "video/quicktime" })
      { apiKey := some "k", isDeployment := true,
        transcode := Except.ok (), modelCall := Except.ok "fine" } []).files ∧
    ("uploads/v2" ++ "_compressed.mp4") ∉ (formCheckRoute true
      (some { path := "uploads/v2", mimetype := "video/quicktime" })
      { apiKey := some "k", isDeployment := true,
        transcode := Except.ok (), modelCall := Except.ok "fine" } []).files :=
  formCheck_success_files_deleted true _ _ [] (by decide)

/-- C7: when the ffmpeg child process exits non-zero, the request is
answered 500 and the response's `message` field contains the text
captured from the process's stderr stream as a substring. -/
theorem transcoder_failure_stderr_in_message (f : IncomingFile)
    (env : FormCheckEnv) (fs : List String) (key stderrText : String)
    (hmime : fileFilterAccepts f.mimetype = true)
    (hkey : env.apiKey = some key)
    (htr : env.transcode = Except.error stderrText) :
    (formCheckRoute true (some f) env fs).status = 500 ∧
    ∃ pre post, (formCheckRoute true (some f) env fs).body.message =
      some (pre ++ stderrText ++ post) := by
  rw [route_transcode_error f env fs key stderrText hmime hkey htr]
  refine ⟨rfl, "Failed to process form check: Failed to compress video: ", "", ?_⟩
  show some ("Failed to process form check: " ++ ("Failed to compress video: " ++ stderrText)) = _
  rw [String.append_empty, ← String.append_assoc]
  rfl

/-- Witness for `transcoder_failure_stderr_in_message`. -/
theorem transcoder_failure_stderr_in_message_witness :
    (formCheckRoute true (some { path := "uploads/v3", mimetype := "video/mp4" })
      { apiKey := some "k", isDeployment := false,
        transcode := Except.error "codec not found",
        modelCall := Except.ok "t" } []).status = 500 ∧
    ∃ pre post, (formCheckRoute true
      (some { path := "uploads/v3", mimetype := "video/mp4" })
      { apiKey := some "k", isDeployment := false,
        transcode := Except.error "codec not found",
        modelCall := Except.ok "t" } []).body.message =
      some (pre ++ "codec not found" ++ post) :=
  transcoder_failure_stderr_in_message _ _ [] "k" "codec not found"
    (by decide) rfl rfl

/-- C10: the transcoded file is unlinked right after being read into
memory and strictly before the model call is issued; hence on a run where
the model call throws after a successful transcode, the 500 response is
sent with the transcoded file already gone and the original upload still
on disk. -/
theorem model_failure_cleanup_order (f : IncomingFile) (env : FormCheckEnv)
    (fs : List String) (key errMsg : String)
    (hmime : fileFilterAccepts f.mimetype = true)
    (hkey : env.apiKey = some key)
    (htr : env.transcode = Except.ok ())
    (hmc : env.modelCall = Except.error errMsg) :
    (formCheckRoute true (some f) env fs).trace =
      [Ev.spawnFfmpeg, Ev.unlink (f.path ++ "_compressed.mp4"),
        Ev.callModel, Ev.respond 500] ∧
    (formCheckRoute true (some f) env fs).status = 500 ∧
    (f.path ++ "_compressed.mp4") ∉ (formCheckRoute true (some f) env fs).files ∧
    f.path ∈ (formCheckRoute true (some f) env fs).files := by
  rw [route_model_error f env fs key errMsg hmime hkey htr hmc]
  refine ⟨rfl, rfl, ?_, ?_⟩
  · simp [mem_removeFile]
  · simp [mem_removeFile, mem_insertFile]
    exact path_ne_compressed f.path

/-- Witness for `model_failure_cleanup_order`. -/
theorem model_failure_cleanup_order_witness :
    (formCheckRoute true (some { path := "uploads/v4", mimetype := "video/mp4" })
      { apiKey := some "k", isDeployment := false,
        transcode := Except.ok (),
        modelCall := Except.error "quota" } []).trace =
      [Ev.spawnFfmpeg, Ev.unlink ("uploads/v4" ++ "_compressed.mp4"),
        Ev.callModel, Ev.respond 500] ∧
    (formCheckRoute true (some { path := "uploads/v4", mimetype := "video/mp4" })
      { apiKey := some "k", isDeployment := false,
        transcode := Except.ok (),
        modelCall := Except.error "quota" } []).status = 500 ∧
    ("uploads/v4" ++ "_compressed.mp4") ∉ (formCheckRoute true
      (some { path := "uploads/v4", mimetype := "video/mp4" })
      { apiKey := some "k", isDeployment := false,
        transcode := Except.ok (),
        modelCall := Except.error "quota" } []).files ∧
    "uploads/v4" ∈ (formCheckRoute true
      (some { path := "uploads/v4", mimetype := "video/mp4" })
      { apiKey := some "k", isDeployment := false,
        transcode := Except.ok (),
        modelCall := Except.error "quota" } []).files :=
  model_failure_cleanup_order _ _ [] "k" "quota" (by decide) rfl rfl rfl

/-- C9 counterexample: an unauthenticated POST /api/form-check whose file
part the multer filter rejects is answered with the upload-rejection
status (400, spec-modelled error middleware), not 401 — multer runs
before the handler and hence before its auth guard. -/
theorem unauthenticated_rejected_upload_not_401 :
    (formCheckRoute false (some { path := "uploads/v5", mimetype := "video/webm" })
      { apiKey := some "k", isDeployment := false,
        transcode := Except.ok (), modelCall := Except.ok "t" } []).status = 400 ∧
    (formCheckRoute false (some { path := "uploads/v5", mimetype := "video/webm" })
      { apiKey := some "k", isDeployment := false,
        transcode := Except.ok (), modelCall := Except.ok "t" } []).status ≠ 401 := by
  refine ⟨?_, ?_⟩ <;> decide

/-- C9 amended: every unauthenticated request to the six CRUD endpoints is
answered 401 with the database unchanged; an unauthenticated POST
/api/form-check is answered 401 with no transcode or model call when its
file part is absent or passes the multer filter, but when the filter
rejects the file part the response is the upload rejection (400), not 401
— in that case too no ffmpeg spawn and no model call happen. -/
theorem unauthenticated_requests :
    (∀ (uid : Nat) (db : List PushupRow),
        getPushups false uid db = Resp.unauthorized)
    ∧ (∀ (uid : Nat) (c : JsNum Int) (d : Option Nat) (now fid : Nat)
        (db : List PushupRow),
        postPushups false uid c d now fid db = (Resp.unauthorized, db))
    ∧ (∀ (uid i : Nat) (db : List PushupRow),
        deletePushups false uid i db = (Resp.unauthorized, db))
    ∧ (∀ (uid : Nat) (db : List WalkRow),
        getWalks false uid db = Resp.unauthorized)
    ∧ (∀ (uid : Nat) (m : JsNum Rat) (d : Option Nat) (now fid : Nat)
        (db : List WalkRow),
        postWalks false uid m d now fid db = (Resp.unauthorized, db))
    ∧ (∀ (uid i : Nat) (db : List WalkRow),
        deleteWalks false uid i db = (Resp.unauthorized, db))
    ∧ (∀ (env : FormCheckEnv) (fs : List String),
        (formCheckRoute false none env fs).status = 401 ∧
        (formCheckRoute false none env fs).trace = [Ev.respond 401])
    ∧ (∀ (f : IncomingFile) (env : FormCheckEnv) (fs : List String),
        fileFilterAccepts f.mimetype = true →
        (formCheckRoute false (some f) env fs).status = 401 ∧
        (formCheckRoute false (some f) env fs).trace = [Ev.respond 401])
    ∧ (∀ (f : IncomingFile) (env : FormCheckEnv) (fs : List String),
        fileFilterAccepts f.mimetype = false →
        (formCheckRoute false (some f) env fs).status = 400 ∧
        Ev.spawnFfmpeg ∉ (formCheckRoute false (some f) env fs).trace ∧
        Ev.callModel ∉ (formCheckRoute false (some f) env fs).trace) := by
  refine ⟨?_, ?_, ?_, ?_, ?_, ?_, ?_, ?_, ?_⟩
  · intro uid db; rfl
  · intro uid c d now fid db; rfl
  · intro uid i db; rfl
  · intro uid db; rfl
  · intro uid m d now fid db; rfl
  · intro uid i db; rfl
  · intro env fs
    rw [route_missing_file false env fs]
    exact ⟨rfl, rfl⟩
  · intro f env fs hmime
    rw [route_unauth f env fs hmime]
    exact ⟨rfl, rfl⟩
  · intro f env fs hmime
    rw [route_rejected false f env fs hmime]
    exact ⟨rfl, by simp, by simp⟩

/-- Witness for `unauthenticated_requests`: a concrete unauthenticated
accepted-file form-check request. -/
theorem unauthenticated_requests_witness :
    (formCheckRoute false (some { path := "uploads/v6", mimetype := "video/mp4" })
      { apiKey := some "k", isDeployment := false,
        transcode := Except.ok (), modelCall := Except.ok "t" } []).status = 401 ∧
    (formCheckRoute false (some { path := "uploads/v6", mimetype := "video/mp4" })
      { apiKey := some "k", isDeployment := false,
        transcode := Except.ok (), modelCall := Except.ok "t" } []).trace =
      [Ev.respond 401] :=
  unauthenticated_requests.2.2.2.2.2.2.2.1 _ _ [] (by decide)

/-- Witness for `entry_store_userId_scoping` at a two-user database. -/
theorem entry_store_userId_scoping_witness :
    (({ id := 1, userId := 1, count := 10, date := 5 } : PushupRow) ∈
        ([{ id := 1, userId := 1, count := 10, date := 5 }] : List PushupRow) ↔
      (({ id := 1, userId := 1, count := 10, date := 5 } : PushupRow) ∈
          ([{ id := 1, userId := 1, count := 10, date := 5 },
            { id := 2, userId := 2, count := 20, date := 6 }] : List PushupRow) ∧
        ({ id := 1, userId := 1, count := 10, date := 5 } : PushupRow).userId = 1))
    ∧ (deletePushups true 1 2
        [{ id := 1, userId := 1, count := 10, date := 5 },
         { id := 2, userId := 2, count := 20, date := 6 }]).2 =
      [{ id := 1, userId := 1, count := 10, date := 5 },
       { id := 2, userId := 2, count := 20, date := 6 }] := by
  refine ⟨entry_store_userId_scoping.1 1 _ _ (by decide) _,
    entry_store_userId_scoping.2.2 1 2 _ (by decide)⟩

/-! Lemmas about the chart aggregation fold. -/

theorem addToBucket_fst_mem (acc : List (String × Int)) (k : String) (c : Int)
    (k2 : String) :
    k2 ∈ (addToBucket acc k c).map Prod.fst ↔
      (k2 = k ∨ k2 ∈ acc.map Prod.fst) := by
  induction acc with
  | nil => simp [addToBucket]
  | cons hd tl ih =>
      obtain ⟨k3, v⟩ := hd
      simp only [addToBucket]
      by_cases h : k3 = k
      · rw [if_pos h]
        subst h
        simp only [List.map_cons, List.mem_cons]
        tauto
      · rw [if_neg h]
        simp only [List.map_cons, List.mem_cons, ih]
        tauto

theorem addToBucket_nodup (acc : List (String × Int)) (k : String) (c : Int)
    (h : (acc.map Prod.fst).Nodup) :
    ((addToBucket acc k c).map Prod.fst).Nodup := by
  induction acc with
  | nil => simp [addToBucket]
  | cons hd tl ih =>
      obtain ⟨k3, v⟩ := hd
      simp only [List.map_cons, List.nodup_cons] at h
      simp only [addToBucket]
      by_cases hk : k3 = k
      · rw [if_pos hk]
        simp only [List.map_cons, List.nodup_cons]
        exact h
      · rw [if_neg hk]
        simp only [List.map_cons, List.nodup_cons]
        refine ⟨?_, ih h.2⟩
        rw [addToBucket_fst_mem]
        push_neg
        exact ⟨hk, h.1⟩

theorem addToBucket_lookupD (acc : List (String × Int)) (k : String) (c : Int)
    (k2 : String) :
    lookupD (addToBucket acc k c) k2 =
      if k2 = k then lookupD acc k2 + c else lookupD acc k2 := by
  induction acc with
  | nil =>
      by_cases h : k2 = k
      · subst h
        simp [addToBucket, lookupD]
      · simp [addToBucket, lookupD, h, Ne.symm h]
  | cons hd tl ih =>
      obtain ⟨k3, v⟩ := hd
      by_cases h3 : k3 = k
      · subst h3
        by_cases h2 : k2 = k3
        · subst h2
          simp [addToBucket, lookupD]
        · simp [addToBucket, lookupD, h2, Ne.symm h2]
      · by_cases h2 : k2 = k3
        · subst h2
          simp [addToBucket, lookupD, h3]
        · simp [addToBucket, lookupD, h3, h2, Ne.symm h2, ih]

theorem foldl_addToBucket_lookupD (f : ClientEntry → String)
    (l : List ClientEntry) :
    ∀ (acc : List (String × Int)) (k : String),
      lookupD (l.foldl (fun acc e => addToBucket acc (f e) e.count) acc) k =
        lookupD acc k + sumKeyed f k l := by
  induction l with
  | nil =>
      intro acc k
      simp [sumKeyed]
  | cons e tl ih =>
      intro acc k
      simp only [List.foldl_cons]
      rw [ih, addToBucket_lookupD]
      by_cases h : f e = k
      · rw [if_pos h.symm]
        simp only [sumKeyed, List.filter_cons, h]
        simp
        ring
      · rw [if_neg (fun hh => h hh.symm)]
        simp only [sumKeyed, List.filter_cons, h]
        simp

theorem foldl_addToBucket_nodup (f : ClientEntry → String)
    (l : List ClientEntry) :
    ∀ acc : List (String × Int), (acc.map Prod.fst).Nodup →
      ((l.foldl (fun acc e => addToBucket acc (f e) e.count) acc).map
        Prod.fst).Nodup := by
  induction l with
  | nil => intro acc h; simpa using h
  | cons e tl ih =>
      intro acc h
      simp only [List.foldl_cons]
      exact ih _ (addToBucket_nodup acc (f e) e.count h)

theorem foldl_addToBucket_keys_mono (f : ClientEntry → String)
    (l : List ClientEntry) :
    ∀ (acc : List (String × Int)) (k : String), k ∈ acc.map Prod.fst →
      k ∈ (l.foldl (fun acc e => addToBucket acc (f e) e.count) acc).map
        Prod.fst := by
  induction l with
  | nil => intro acc k h; simpa using h
  | cons e tl ih =>
      intro acc k h
      simp only [List.foldl_cons]
      exact ih _ k ((addToBucket_fst_mem acc (f e) e.count k).mpr (Or.inr h))

theorem foldl_addToBucket_covers (f : ClientEntry → String)
    (l : List ClientEntry) :
    ∀ (acc : List (String × Int)) (e : ClientEntry), e ∈ l →
      f e ∈ (l.foldl (fun acc e => addToBucket acc (f e) e.count) acc).map
        Prod.fst := by
  induction l with
  | nil => intro acc e h; cases h
  | cons hd tl ih =>
      intro acc e he
      simp only [List.foldl_cons]
      rcases List.mem_cons.mp he with rfl | htl
      · exact foldl_addToBucket_keys_mono f tl _ (f e)
          ((addToBucket_fst_mem acc (f e) e.count (f e)).mpr (Or.inl rfl))
      · exact ih _ e htl

theorem lookupD_eq_of_mem (acc : List (String × Int)) (k : String) (v : Int)
    (hnd : (acc.map Prod.fst).Nodup) (h : (k, v) ∈ acc) :
    lookupD acc k = v := by
  induction acc with
  | nil => cases h
  | cons hd tl ih =>
      obtain ⟨k3, v3⟩ := hd
      simp only [List.map_cons, List.nodup_cons] at hnd
      rcases List.mem_cons.mp h with h1 | h1
      · obtain ⟨rfl, rfl⟩ := Prod.mk.injEq .. ▸ h1
        simp [lookupD]
      · have hk : k3 ≠ k := by
          intro hh
          subst hh
          exact hnd.1 (List.mem_map.mpr ⟨(k3, v), h1, rfl⟩)
        simp [lookupD, hk, ih hnd.2 h1]

theorem sumKeyed_perm (f : ClientEntry → String) (k : String)
    {l1 l2 : List ClientEntry} (h : l1.Perm l2) :
    sumKeyed f k l1 = sumKeyed f k l2 :=
  ((h.filter _).map _).sum_eq

theorem chartData_value (view : ViewType) (entries : List ClientEntry)
    (k : String) (v : Int) (h : (k, v) ∈ chartData view entries) :
    v = bucketSum view k entries := by
  have hnd := foldl_addToBucket_nodup (bucketKey view) (sortedByDate entries)
    [] (by simp)
  have hv := lookupD_eq_of_mem _ k v hnd h
  have hl := foldl_addToBucket_lookupD (bucketKey view)
    (sortedByDate entries) [] k
  rw [hl] at hv
  have hperm : (sortedByDate entries).Perm entries :=
    List.perm_insertionSort _ entries
  have hsum := sumKeyed_perm (bucketKey view) k hperm
  rw [hsum] at hv
  simp only [lookupD, Int.zero_add] at hv
  exact hv.symm

theorem chartData_covers (view : ViewType) (entries : List ClientEntry)
    (e : ClientEntry) (h : e ∈ entries) :
    ∃ v, (bucketKey view e, v) ∈ chartData view entries := by
  have hmem : e ∈ sortedByDate entries :=
    ((List.perm_insertionSort _ entries).symm.mem_iff).mp h
  have hkey := foldl_addToBucket_covers (bucketKey view)
    (sortedByDate entries) [] e hmem
  rw [← chartData] at hkey
  obtain ⟨⟨k2, v⟩, hin, hfst⟩ := List.mem_map.mp hkey
  exact ⟨v, by rw [show k2 = bucketKey view e from hfst] at hin; exact hin⟩

set_option maxRecDepth 4000 in
/-- C8: chart aggregation. The daily view on the spec's example groups by
calendar day and sums: it yields `[("01/01", 8), ("01/02", 2)]`. The
weekly view sums (not averages) the counts of all entries whose date
falls into the same Sunday-based week-start bucket, and the monthly view
those of all entries in the same month-start bucket; every entry's bucket
appears in the output. -/
theorem chart_aggregation :
    chartData ViewType.daily
        [{ id := 1, count := 5, date := "2024-01-01" },
         { id := 2, count := 3, date := "2024-01-01" },
         { id := 3, count := 2, date := "2024-01-02" }] =
      [("01/01", 8), ("01/02", 2)]
    ∧ (∀ (entries : List ClientEntry) (k : String) (v : Int),
        (k, v) ∈ chartData ViewType.weekly entries →
        v = bucketSum ViewType.weekly k entries)
    ∧ (∀ (entries : List ClientEntry) (e : ClientEntry), e ∈ entries →
        ∃ v, (bucketKey ViewType.weekly e, v) ∈
          chartData ViewType.weekly entries)
    ∧ (∀ (entries : List ClientEntry) (k : String) (v : Int),
        (k, v) ∈ chartData ViewType.monthly entries →
        v = bucketSum ViewType.monthly k entries)
    ∧ (∀ (entries : List ClientEntry) (e : ClientEntry), e ∈ entries →
        ∃ v, (bucketKey ViewType.monthly e, v) ∈
          chartData ViewType.monthly entries) := by
  refine ⟨by decide, ?_, ?_, ?_, ?_⟩
  · exact fun entries k v h => chartData_value ViewType.weekly entries k v h
  · exact fun entries e h => chartData_covers ViewType.weekly entries e h
  · exact fun entries k v h => chartData_value ViewType.monthly entries k v h
  · exact fun entries e h => chartData_covers ViewType.monthly entries e h

set_option maxRecDepth 4000 in
/-- Witness for `chart_aggregation`: a concrete two-week entry list whose
weekly buckets sum the counts. -/
theorem chart_aggregation_witness :
    (5 : Int) = bucketSum ViewType.weekly "12/31"
      [{ id := 1, count := 5, date := "2024-01-01" },
       { id := 3, count := 2, date := "2024-01-08" }] ∧
    ∃ v, (bucketKey ViewType.weekly
        ({ id := 1, count := 5, date := "2024-01-01" } : ClientEntry), v) ∈
      chartData ViewType.weekly
        [{ id := 1, count := 5, date := "2024-01-01" },
         { id := 3, count := 2, date := "2024-01-08" }] :=
  ⟨chart_aggregation.2.1 _ "12/31" 5 (by decide),
    chart_aggregation.2.2.1 _ _ (by decide)⟩

end BoleTracker
